import Mathlib

/-!
Verification of the bulk-messaging campaign server (src/index.js) against its
natural-language specification. The JavaScript source is shallowly embedded:
each relevant source fragment becomes an executable Lean definition over
explicit state, and the frozen claims are settled as theorems about those
definitions. Timestamps are modelled as natural numbers (milliseconds);
on-disk artifact removal (fs.rm, fs.writeFileSync) is outside the model.
String primitives of JavaScript (split, trim, includes) are embedded as
structurally recursive functions on the character list of a string so that
the kernel can evaluate them.
-/

/-- Embeds `String.prototype.split(sep)` of JavaScript for a one-character
separator: cuts the character list at every occurrence of the separator,
keeping empty pieces (so "a\n\nb" has an empty middle piece). The
accumulator holds the current piece reversed. -/
def jsSplitAux (sep : Char) : List Char → List Char → List (List Char)
  | [], acc => [acc.reverse]
  | c :: cs, acc =>
    if c == sep then acc.reverse :: jsSplitAux sep cs []
    else jsSplitAux sep cs (c :: acc)

/-- `payload.split('\n')` from src/index.js line 86. -/
def jsSplitLines (s : String) : List String :=
  (jsSplitAux '\n' s.data []).map (fun cs => ⟨cs⟩)

/-- Drops leading whitespace characters from a character list; used twice to
embed `String.prototype.trim()`. -/
def dropLeadingWs : List Char → List Char
  | [] => []
  | c :: cs => if c.isWhitespace then dropLeadingWs cs else c :: cs

/-- Embeds `String.prototype.trim()` of JavaScript: removes leading and
trailing whitespace. -/
def jsTrim (s : String) : String :=
  ⟨((dropLeadingWs ((dropLeadingWs s.data).reverse)).reverse)⟩

/-- Whether the first list occurs at the head of the second (helper for the
embedding of `String.prototype.includes`). -/
def leadsWith : List Char → List Char → Bool
  | [], _ => true
  | _ :: _, [] => false
  | p :: ps, c :: cs => p == c && leadsWith ps cs

/-- Whether the first list occurs contiguously anywhere in the second. -/
def containsSeq (pat : List Char) : List Char → Bool
  | [] => pat.isEmpty
  | c :: cs => leadsWith pat (c :: cs) || containsSeq pat cs

/-- Embeds `s.includes(pat)` of JavaScript. -/
def jsIncludes (s pat : String) : Bool :=
  containsSeq pat.data s.data

/-- Embeds the message-queue construction in app.post of /send, src/index.js
lines 85-88: `smsFile.toString('utf8').split('\n').map(line => hatersName +
" " + line.trim()).filter(line => line)`. The template literal inserts a
space between the prefix and the trimmed line; the filter keeps exactly the
lines that are truthy, i.e. non-empty strings. -/
def buildMessages (hatersName : String) (payload : String) : List String :=
  ((jsSplitLines payload).map (fun line => hatersName ++ " " ++ jsTrim line)).filter
    (fun line => !line.data.isEmpty)

/-- Result of one `socket.sendMessage` call: success, or a thrown error
carrying its message string. -/
inductive Outcome where
  | ok : Outcome
  | err : String → Outcome
deriving DecidableEq, Repr

/-- The connection-error test in the catch branch of the delivery loop,
src/index.js line 319: `error.message.includes('connection') ||
error.message.includes('socket')`. -/
def isConnErr (m : String) : Bool :=
  jsIncludes m "connection" || jsIncludes m "socket"

/-- The per-session mutable state the delivery loop of sendMessages touches.
`running`, `sent`, `failed` mirror the fields of the registry entry
(sentCount, failedCount). `attempted` is a ghost counter of messages
dequeued (loop iterations that reached a send attempt). `exited` is a ghost
flag recording that the for-loop has terminated (by break or by the running
check), so that later trace events are ignored. `completedLog` records that
the completion branch after the loop ran (it logs "Message sending
completed"). -/
structure LoopState where
  running : Bool
  sent : Nat
  failed : Nat
  attempted : Nat
  exited : Bool
  completedLog : Bool
deriving DecidableEq, Repr

/-- One iteration of the delivery loop, src/index.js lines 290-326. The
trace element pairs the outcome of the send with a flag telling whether a
stop request (app.post of /stop, which sets running to false) lands while
this send is in flight. The loop first checks `running` and breaks if it is
false; a send outcome then unconditionally increments exactly one counter
(the code does not re-check `running` after the await); a failure whose
message passes `isConnErr` breaks out of the loop. -/
def loopStep (s : LoopState) (ev : Outcome × Bool) : LoopState :=
  if s.exited then s
  else if !s.running then { s with exited := true }
  else
    let stopInFlight := ev.2
    match ev.1 with
    | Outcome.ok =>
      { s with running := !stopInFlight, sent := s.sent + 1,
               attempted := s.attempted + 1 }
    | Outcome.err m =>
      let s1 := { s with running := !stopInFlight, failed := s.failed + 1,
                         attempted := s.attempted + 1 }
      if isConnErr m then { s1 with exited := true } else s1

/-- The delivery loop over a whole trace of send outcomes. -/
def deliveryLoop (s : LoopState) (tr : List (Outcome × Bool)) : LoopState :=
  tr.foldl loopStep s

/-- The completion check after the loop, src/index.js lines 328-344: if the
session is still running once the for-loop ends, log "Message sending
completed", set running to false and tear the connection down. -/
def afterLoop (s : LoopState) : LoopState :=
  if s.running then { s with running := false, completedLog := true } else s

/-- The delivery phase of sendMessages: the loop followed by the completion
check. -/
def runDelivery (s : LoopState) (tr : List (Outcome × Bool)) : LoopState :=
  afterLoop (deliveryLoop s tr)

/-- The loop state of a freshly created session (src/index.js lines 91-99:
running true, counters zero). -/
def initLoopState : LoopState :=
  { running := true, sent := 0, failed := 0, attempted := 0,
    exited := false, completedLog := false }

/-- State of the reconnect closure in sendMessages: the session running
flag, the `reconnectAttempts` counter (bounded by maxReconnectAttempts =
15), and a ghost total of reconnect attempts actually performed. -/
structure ReconnState where
  running : Bool
  attempts : Nat
  attemptsMade : Nat
deriving DecidableEq, Repr

/-- Result of one reconnect attempt body (the try block: sock.end, rebuild
auth state, makeWASocket). -/
inductive RecOutcome where
  | success : RecOutcome
  | failure : RecOutcome
deriving DecidableEq, Repr

/-- One invocation of the `reconnect` closure, src/index.js lines 242-271.
If the session is no longer running or the attempt counter has reached
maxReconnectAttempts (15), it returns immediately without doing anything.
Otherwise it increments the counter and attempts; on success the counter is
reset to zero, on failure another invocation is scheduled after 10 s. In no
branch does the closure modify the running flag. -/
def reconnectStep (s : ReconnState) (o : RecOutcome) : ReconnState :=
  if !s.running || 15 ≤ s.attempts then s
  else
    match o with
    | RecOutcome.success =>
      { s with attempts := 0, attemptsMade := s.attemptsMade + 1 }
    | RecOutcome.failure =>
      { s with attempts := s.attempts + 1, attemptsMade := s.attemptsMade + 1 }

/-- A sequence of reconnect invocations with given attempt outcomes. -/
def reconnectRun (s : ReconnState) (os : List RecOutcome) : ReconnState :=
  os.foldl reconnectStep s

/-- What the connection-close branch does. -/
inductive CloseAction where
  | scheduleReconnect : CloseAction
  | logPermanentClose : CloseAction
deriving DecidableEq, Repr

/-- The `connection === 'close'` branch of the connection.update handler,
src/index.js lines 345-353: reconnect is scheduled iff the disconnect
status code is not 401 and the session is still running; otherwise the
entry "[ERROR] Connection closed permanently" is logged. The pair returned
is the chosen action and the running flag after the branch, which neither
path modifies. -/
def onConnectionClose (running : Bool) (statusCode : Option Nat) :
    CloseAction × Bool :=
  let shouldReconnect := !(statusCode == some 401)
  if shouldReconnect && running then (CloseAction.scheduleReconnect, running)
  else (CloseAction.logPermanentClose, running)

/-- Lookup in a JavaScript Map modelled as an association list in insertion
order (Map.get, with Map.has = isSome of the result). -/
def alGet {α : Type} : List (String × α) → String → Option α
  | [], _ => none
  | (k1, v) :: rest, k => if k1 == k then some v else alGet rest k

/-- Map.set: replaces the value at the key in place, or appends a new
binding at the end. -/
def alSet {α : Type} : List (String × α) → String → α → List (String × α)
  | [], k, v => [(k, v)]
  | (k1, v1) :: rest, k, v =>
    if k1 == k then (k, v) :: rest else (k1, v1) :: alSet rest k v

/-- Map.delete. -/
def alDel {α : Type} (m : List (String × α)) (k : String) : List (String × α) :=
  m.filter (fun p => p.1 != k)

/-- The part of the loop state that is visible outside the delivery loop
(everything except the ghost flag recording that the for-loop exited):
running flag, both counters, the ghost dequeue counter and the
completion-log flag. -/
def obs (s : LoopState) : Bool × Nat × Nat × Nat × Bool :=
  (s.running, s.sent, s.failed, s.attempted, s.completedLog)

/-- A value of the activeSessions map, src/index.js lines 91-99. Times are
milliseconds since the epoch. -/
structure Session where
  running : Bool
  targetNumber : String
  targetType : String
  startTime : Nat
  sentCount : Nat
  failedCount : Nat
  lastActivity : Nat
deriving DecidableEq, Repr

/-- The body of a successful app.get /status/:sessionKey response,
src/index.js lines 175-184. -/
structure StatusResponse where
  running : Bool
  targetNumber : String
  targetType : String
  startTime : Nat
  sentCount : Nat
  failedCount : Nat
  lastActivity : Nat
deriving DecidableEq, Repr

/-- A connected WebSocket observer: its readyState, the sessionKey property
the subscribe handler may set on it, and a ghost list of the payloads the
server sent it. -/
structure WsClient where
  isOpen : Bool
  sessionKey : Option String
  received : List String
deriving DecidableEq, Repr

/-- The in-memory state of the server: the three process-wide maps of
src/index.js lines 16-18 (sessionConnections reduced to the set of keys
holding a live socket handle) and the connected WebSocket clients. -/
structure ServerState where
  activeSessions : List (String × Session)
  sessionLogs : List (String × List String)
  sessionConnections : List String
  clients : List WsClient
deriving DecidableEq, Repr

/-- The buffer update inside broadcastLogs, src/index.js lines 56-59: push
the timestamped entry, then shift the oldest entry off if the length
exceeds 500. -/
def appendLog (logs : List String) (entry : String) : List String :=
  if 500 < (logs ++ [entry]).length then (logs ++ [entry]).drop 1
  else logs ++ [entry]

/-- What the fan-out in broadcastLogs, src/index.js lines 61-68, does to a
single client: an open client whose sessionKey property equals the session
key receives the raw message, any other client is untouched. -/
def notifyClient (key msg : String) (c : WsClient) : WsClient :=
  if c.isOpen && c.sessionKey == some key then
    { c with received := c.received ++ [msg] }
  else c

/-- The fan-out in broadcastLogs over all connected clients. -/
def notifyClients (clients : List WsClient) (key msg : String) : List WsClient :=
  clients.map (notifyClient key msg)

/-- broadcastLogs, src/index.js lines 52-69: create the log buffer for the
key if absent, append the entry "[ts] msg", evict the oldest entry past
500, then notify the subscribed open clients. -/
def broadcastLogs (st : ServerState) (key ts msg : String) : ServerState :=
  let cur := (alGet st.sessionLogs key).getD []
  let updated := appendLog cur ("[" ++ ts ++ "] " ++ msg)
  { st with sessionLogs := alSet st.sessionLogs key updated,
            clients := notifyClients st.clients key msg }

/-- The subscribe branch of the WebSocket message handler, src/index.js
lines 36-45: only when a log buffer exists for the requested key does the
handler set the sessionKey property on the socket and send the backlog;
otherwise nothing at all happens. Returns the updated client and the
backlog payload sent, if any. -/
def subscribeHandler (st : ServerState) (c : WsClient) (key : String) :
    WsClient × Option (List String) :=
  match alGet st.sessionLogs key with
  | some backlog => ({ c with sessionKey := some key }, some backlog)
  | none => (c, none)

/-- app.post /stop, src/index.js lines 119-161: 404 when the key is absent
from activeSessions; otherwise set running to false, write the entry back,
close and drop the connection handle, schedule file cleanup (outside the
model) and broadcast "[SYSTEM] Session stopped by user". Returns the new
state and whether the stop succeeded. -/
def stopCampaign (st : ServerState) (key ts : String) : ServerState × Bool :=
  match alGet st.activeSessions key with
  | none => (st, false)
  | some session =>
    let session1 := { session with running := false }
    let st1 := { st with
      activeSessions := alSet st.activeSessions key session1,
      sessionConnections := st.sessionConnections.filter (fun k => k != key) }
    (broadcastLogs st1 key ts "[SYSTEM] Session stopped by user", true)

/-- app.get /status/:sessionKey, src/index.js lines 163-192: none models
the 404 branch, otherwise the session fields are echoed back. -/
def getStatus (st : ServerState) (key : String) : Option StatusResponse :=
  (alGet st.activeSessions key).map (fun s =>
    { running := s.running, targetNumber := s.targetNumber,
      targetType := s.targetType, startTime := s.startTime,
      sentCount := s.sentCount, failedCount := s.failedCount,
      lastActivity := s.lastActivity })

/-- Whether the sweep keeps a session, src/index.js lines 206-218: running
sessions are skipped outright; a stopped session is kept iff its
lastActivity is at most one hour (3600000 ms) old. JavaScript date
subtraction is modelled by truncated Nat subtraction: a lastActivity in the
future gives 0 on both sides of the comparison. -/
def sweepKeeps (now : Nat) (s : Session) : Bool :=
  s.running || !(3600000 < now - s.lastActivity)

/-- The setInterval sweep body, src/index.js lines 204-220: entries failing
`sweepKeeps` are deleted from activeSessions and sessionLogs (file removal
is outside the model). -/
def sweep (st : ServerState) (now : Nat) : ServerState :=
  let removed := st.activeSessions.filter (fun p => !sweepKeeps now p.2)
  { st with
    activeSessions := st.activeSessions.filter (fun p => sweepKeeps now p.2),
    sessionLogs := st.sessionLogs.filter
      (fun q => (alGet removed q.1).isNone) }

/-! Helper lemmas shared by the claim theorems. -/

theorem alGet_alSet_self {α : Type} (m : List (String × α)) (k : String) (v : α) :
    alGet (alSet m k v) k = some v := by
  induction m with
  | nil => simp [alSet, alGet]
  | cons p rest ih =>
    obtain ⟨k1, v1⟩ := p
    by_cases h : k1 == k
    · simp [alSet, alGet, h]
    · simp only [alSet, alGet, h, if_neg]
      simp only [Bool.not_eq_true] at h
      simp [alGet, h, ih]

theorem deliveryLoop_append (s : LoopState) (a b : List (Outcome × Bool)) :
    deliveryLoop s (a ++ b) = deliveryLoop (deliveryLoop s a) b := by
  simp [deliveryLoop, List.foldl_append]

/-- A step taken from a state whose loop has stopped (running flag already
false, or the for-loop already exited) at most flips the ghost exit flag:
the observable part is unchanged and the loop stays stopped. -/
theorem loopStep_stopped (s : LoopState) (ev : Outcome × Bool)
    (h : s.running = false ∨ s.exited = true) :
    obs (loopStep s ev) = obs s ∧
    ((loopStep s ev).running = false ∨ (loopStep s ev).exited = true) := by
  rcases h with h | h
  · unfold loopStep
    by_cases he : s.exited
    · simp [he, obs]
    · simp [he, h, obs]
  · unfold loopStep
    simp [h, obs]

/-- Once the loop is stopped, any further trace leaves the observable state
unchanged. -/
theorem deliveryLoop_stopped (s : LoopState) (tr : List (Outcome × Bool))
    (h : s.running = false ∨ s.exited = true) :
    obs (deliveryLoop s tr) = obs s := by
  induction tr generalizing s with
  | nil => rfl
  | cons ev rest ih =>
    have hs := loopStep_stopped s ev h
    simp only [deliveryLoop, List.foldl_cons]
    calc obs (List.foldl loopStep (loopStep s ev) rest)
        = obs (loopStep s ev) := ih (loopStep s ev) hs.2
      _ = obs s := hs.1

/-- After the loop processes an event during which a stop request landed,
the loop is stopped. -/
theorem loopStep_stop_event (s : LoopState) (o : Outcome) :
    (loopStep s (o, true)).running = false ∨
    (loopStep s (o, true)).exited = true := by
  unfold loopStep
  by_cases he : s.exited
  · simp [he]
  · by_cases hr : s.running
    · cases o with
      | ok => simp [he, hr]
      | err m =>
        by_cases hc : isConnErr m
        · simp [he, hr, hc]
        · simp [he, hr, hc]
    · simp only [Bool.not_eq_true] at hr
      simp [he, hr]

/-- One loop step increments the two session counters by at most one in
total. -/
theorem loopStep_counter_growth (s : LoopState) (ev : Outcome × Bool) :
    (loopStep s ev).sent + (loopStep s ev).failed ≤ s.sent + s.failed + 1 := by
  unfold loopStep
  by_cases he : s.exited
  · simp [he]
  · by_cases hr : s.running
    · cases ev.1 with
      | ok => simp [he, hr]; omega
      | err m =>
        by_cases hc : isConnErr m
        · simp [he, hr, hc]; omega
        · simp [he, hr, hc]; omega
    · simp only [Bool.not_eq_true] at hr
      simp [he, hr]

/-- One loop step is monotone in both counters and preserves the invariant
that their sum is bounded by the number of dequeued messages. -/
theorem loopStep_counters (s : LoopState) (ev : Outcome × Bool) :
    s.sent ≤ (loopStep s ev).sent ∧
    s.failed ≤ (loopStep s ev).failed ∧
    (s.sent + s.failed ≤ s.attempted →
      (loopStep s ev).sent + (loopStep s ev).failed ≤ (loopStep s ev).attempted) := by
  unfold loopStep
  by_cases he : s.exited
  · simp [he]
  · by_cases hr : s.running
    · cases ev.1 with
      | ok => simp [he, hr]; omega
      | err m =>
        by_cases hc : isConnErr m
        · simp [he, hr, hc]; omega
        · simp [he, hr, hc]; omega
    · simp only [Bool.not_eq_true] at hr
      simp [he, hr]

/-- The reconnect closure never modifies the running flag. -/
theorem reconnectStep_running (s : ReconnState) (o : RecOutcome) :
    (reconnectStep s o).running = s.running := by
  unfold reconnectStep
  split
  · rfl
  · cases o <;> rfl

/-- The reconnect closure never pushes its attempt counter beyond 15. -/
theorem reconnectStep_attempts (s : ReconnState) (o : RecOutcome)
    (h : s.attempts ≤ 15) : (reconnectStep s o).attempts ≤ 15 := by
  unfold reconnectStep
  split
  · exact h
  · rename_i hc
    simp only [Bool.or_eq_true, Bool.not_eq_true', decide_eq_true_eq, not_or] at hc
    cases o
    · exact Nat.zero_le 15
    · simp only []
      omega

theorem reconnectRun_running (s : ReconnState) (os : List RecOutcome) :
    (reconnectRun s os).running = s.running := by
  induction os generalizing s with
  | nil => rfl
  | cons o rest ih =>
    simp only [reconnectRun, List.foldl_cons]
    calc (List.foldl reconnectStep (reconnectStep s o) rest).running
        = (reconnectStep s o).running := ih (reconnectStep s o)
      _ = s.running := reconnectStep_running s o

theorem reconnectRun_attempts (s : ReconnState) (os : List RecOutcome)
    (h : s.attempts ≤ 15) : (reconnectRun s os).attempts ≤ 15 := by
  induction os generalizing s with
  | nil => exact h
  | cons o rest ih =>
    simp only [reconnectRun, List.foldl_cons]
    exact ih (reconnectStep s o) (reconnectStep_attempts s o h)

/-! Claim theorems. -/

/-- C1. The claim says building the queue from payload "a\nb\n\nc" with
prefix "X" yields ["X a", "X b", "X c"] with blank lines dropped. The code
applies the prefix map before the filter, so the blank line becomes the
truthy string "X " and is kept: the queue actually built is
["X a", "X b", "X ", "X c"]. The filter is dead code (every mapped line
contains a space and is non-empty), even though filtering out blank lines
is plainly what it was written for. -/
theorem c1_blank_lines_kept_eval :
    buildMessages "X" "a\nb\n\nc" = ["X a", "X b", "X ", "X c"] := by decide

/-- C2. The claim says that with three queued messages where the first two
sends succeed and the third fails with a connection-style error, the
session ends with sentCount = 2, failedCount = 1 and stays in
AwaitingReconnect (not completed, running not cleared by the loop). The
counters are as claimed, but after the break the completion check at
src/index.js lines 328-344 still sees running = true, logs "Message sending
completed", sets running to false and tears the connection down - despite
the comment on line 318 announcing a reconnect attempt. -/
theorem c2_connection_failure_marks_completed_eval :
    runDelivery initLoopState
      [(Outcome.ok, false), (Outcome.ok, false),
       (Outcome.err "connection reset", false)] =
    { running := false, sent := 2, failed := 1, attempted := 3,
      exited := true, completedLog := true } := by decide

/-- C3 counterexample. Sixteen consecutive invocations of the reconnect
closure with failing attempts, starting from a running session with a
fresh counter: exactly 15 attempts are performed, the sixteenth invocation
is a no-op, and the running flag is still true - the session never
transitions to a failed state when the bound is exhausted, contradicting
the claim that running becomes false. -/
theorem c3_counterexample_bound_exhausted_still_running :
    (reconnectRun { running := true, attempts := 0, attemptsMade := 0 }
        (List.replicate 16 RecOutcome.failure)).running = true ∧
    (reconnectRun { running := true, attempts := 0, attemptsMade := 0 }
        (List.replicate 16 RecOutcome.failure)).attemptsMade = 15 := by decide

/-- C3 amended. Reconnection is attempted at most 15 consecutive times (the
counter never exceeds 15, and once it reaches 15 every further invocation
of the reconnect closure is a no-op); however the reconnect logic never
modifies the running flag, so exhausting the bound leaves the session
running rather than transitioning it to a failed state. -/
theorem c3_reconnect_attempts_bounded (s : ReconnState) (os : List RecOutcome)
    (h : s.attempts ≤ 15) :
    (reconnectRun s os).attempts ≤ 15 ∧
    (reconnectRun s os).running = s.running ∧
    (15 ≤ s.attempts → ∀ o, reconnectStep s o = s) := by
  refine ⟨reconnectRun_attempts s os h, reconnectRun_running s os, ?_⟩
  intro hb o
  unfold reconnectStep
  have : (!s.running || decide (15 ≤ s.attempts)) = true := by
    simp [hb]
  simp [this]

/-- Witness for the amended C3 theorem at a concrete state and trace. -/
theorem c3_reconnect_attempts_bounded_witness :
    (reconnectRun { running := true, attempts := 3, attemptsMade := 0 }
        [RecOutcome.failure, RecOutcome.success]).attempts ≤ 15 ∧
    (reconnectRun { running := true, attempts := 3, attemptsMade := 0 }
        [RecOutcome.failure, RecOutcome.success]).running =
      ({ running := true, attempts := 3, attemptsMade := 0 } : ReconnState).running ∧
    (15 ≤ ({ running := true, attempts := 3, attemptsMade := 0 } : ReconnState).attempts →
      ∀ o, reconnectStep { running := true, attempts := 3, attemptsMade := 0 } o =
        { running := true, attempts := 3, attemptsMade := 0 }) :=
  c3_reconnect_attempts_bounded
    { running := true, attempts := 3, attemptsMade := 0 }
    [RecOutcome.failure, RecOutcome.success] (by decide)

/-- C4 counterexample. A connection-close event with status code 401 on a
running session takes the no-reconnect branch and logs the final entry, but
the handler leaves running at true: the session is not moved to a failed
state, contradicting the claim that running transitions to false. -/
theorem c4_counterexample_auth_close_keeps_running :
    onConnectionClose true (some 401) =
      (CloseAction.logPermanentClose, true) := by decide

/-- C4 amended. A connection-close whose disconnect status code is 401 (the
permanent authentication rejection) never schedules a reconnect and emits
the final "Connection closed permanently" log entry, but the close handler
leaves the running flag unchanged - it does not transition the session to
a failed state. -/
theorem c4_permanent_auth_close_no_reconnect (running : Bool) (sc : Option Nat)
    (h : sc = some 401) :
    (onConnectionClose running sc).1 = CloseAction.logPermanentClose ∧
    (onConnectionClose running sc).2 = running := by
  subst h
  cases running <;> simp [onConnectionClose]

/-- Witness for the amended C4 theorem on a running session. -/
theorem c4_permanent_auth_close_no_reconnect_witness :
    (onConnectionClose true (some 401)).1 = CloseAction.logPermanentClose ∧
    (onConnectionClose true (some 401)).2 = true :=
  c4_permanent_auth_close_no_reconnect true (some 401) rfl

/-- The completion check preserves equality of observable loop states. -/
theorem afterLoop_obs (u v : LoopState) (h : obs u = obs v) :
    obs (afterLoop u) = obs (afterLoop v) := by
  simp only [obs, Prod.mk.injEq] at h
  obtain ⟨hr, hs, hf, ha, hc⟩ := h
  unfold afterLoop
  by_cases hu : u.running
  · have hv : v.running = true := by rw [← hr]; exact hu
    simp [hu, hv, obs, hs, hf, ha]
  · have hv : ¬ v.running = true := by rw [← hr]; exact hu
    simp [hu, hv, obs, hs, hf, ha, hc, hr]

/-- C5 counterexample. The session has one queued message and the stop
request lands while that send is in flight: at the moment of the stop
sentCount is 0, yet after the send resolves the loop increments it (the
code does not re-check running after the await), so the final state has
running = false but sentCount = 1 - an increment after the stop,
contradicting the claim that none occurs. -/
theorem c5_counterexample_inflight_send_counted :
    (deliveryLoop initLoopState [(Outcome.ok, true)]).running = false ∧
    (deliveryLoop initLoopState [(Outcome.ok, true)]).sent = 1 := by decide

/-- C5 amended. After stopCampaign lands during an in-flight send, the
delivery loop performs no further work: the observable state (running flag,
both counters, dequeue count and completion flag) after the whole remaining
trace equals the state right after the in-flight send resolves; that one
in-flight attempt adds at most one to sentCount + failedCount; and once it
resolves the loop is stopped (running false, or the for-loop exited). -/
theorem c5_stop_freezes_counters (s : LoopState)
    (pre post : List (Outcome × Bool)) (o : Outcome) :
    obs (runDelivery s (pre ++ (o, true) :: post)) =
      obs (runDelivery s (pre ++ [(o, true)])) ∧
    (deliveryLoop s (pre ++ [(o, true)])).sent +
        (deliveryLoop s (pre ++ [(o, true)])).failed ≤
      (deliveryLoop s pre).sent + (deliveryLoop s pre).failed + 1 ∧
    ((deliveryLoop s (pre ++ [(o, true)])).running = false ∨
      (deliveryLoop s (pre ++ [(o, true)])).exited = true) := by
  have hsplit : pre ++ (o, true) :: post = (pre ++ [(o, true)]) ++ post := by
    simp
  have h1 : deliveryLoop s (pre ++ [(o, true)]) =
      loopStep (deliveryLoop s pre) (o, true) := by
    rw [deliveryLoop_append]; rfl
  have hstop := loopStep_stop_event (deliveryLoop s pre) o
  refine ⟨?_, ?_, ?_⟩
  · unfold runDelivery
    rw [hsplit, deliveryLoop_append]
    refine afterLoop_obs _ _ ?_
    rw [h1]
    exact deliveryLoop_stopped _ post hstop
  · rw [h1]
    exact loopStep_counter_growth _ _
  · rw [h1]
    exact hstop

/-- C6. In every delivery-loop state whose counters are bounded by the
number of messages dequeued so far, running the loop over any further trace
keeps sentCount and failedCount non-decreasing and keeps their sum bounded
by the number of messages dequeued: each iteration that dequeues a message
increments exactly one of the two counters. Since every reachable state of
a session arises by running the loop from the initial state (counters and
dequeue count all zero) over some trace, the invariant holds at every point
of the session lifetime. -/
theorem c6_counters_bounded_by_dequeued (s : LoopState)
    (tr : List (Outcome × Bool)) (h : s.sent + s.failed ≤ s.attempted) :
    s.sent ≤ (deliveryLoop s tr).sent ∧
    s.failed ≤ (deliveryLoop s tr).failed ∧
    (deliveryLoop s tr).sent + (deliveryLoop s tr).failed ≤
      (deliveryLoop s tr).attempted := by
  induction tr generalizing s with
  | nil => exact ⟨Nat.le_refl _, Nat.le_refl _, h⟩
  | cons ev rest ih =>
    have hstep := loopStep_counters s ev
    have hrec := ih (loopStep s ev) (hstep.2.2 h)
    simp only [deliveryLoop, List.foldl_cons] at hrec ⊢
    exact ⟨Nat.le_trans hstep.1 hrec.1,
           Nat.le_trans hstep.2.1 hrec.2.1, hrec.2.2⟩

/-- Witness for C6 at the initial session state and a small trace. -/
theorem c6_counters_bounded_by_dequeued_witness :
    initLoopState.sent ≤ (deliveryLoop initLoopState
      [(Outcome.ok, false), (Outcome.err "timed out", false)]).sent ∧
    initLoopState.failed ≤ (deliveryLoop initLoopState
      [(Outcome.ok, false), (Outcome.err "timed out", false)]).failed ∧
    (deliveryLoop initLoopState
      [(Outcome.ok, false), (Outcome.err "timed out", false)]).sent +
      (deliveryLoop initLoopState
        [(Outcome.ok, false), (Outcome.err "timed out", false)]).failed ≤
      (deliveryLoop initLoopState
        [(Outcome.ok, false), (Outcome.err "timed out", false)]).attempted :=
  c6_counters_bounded_by_dequeued initLoopState
    [(Outcome.ok, false), (Outcome.err "timed out", false)] (by decide)

/-- C7. The log-buffer update of broadcastLogs keeps the buffer at no more
than 500 entries: appending to a full buffer of 500 evicts the oldest entry
and places the new entry at the end, while appending to a shorter buffer
simply appends. -/
theorem c7_log_buffer_capped (logs : List String) (e : String)
    (h : logs.length ≤ 500) :
    (appendLog logs e).length ≤ 500 ∧
    (logs.length = 500 → appendLog logs e = logs.drop 1 ++ [e]) ∧
    (logs.length < 500 → appendLog logs e = logs ++ [e]) := by
  have hlen : (logs ++ [e]).length = logs.length + 1 := by simp
  by_cases hc : 500 < (logs ++ [e]).length
  · have h500 : logs.length = 500 := by omega
    have hdrop : (logs ++ [e]).drop 1 = logs.drop 1 ++ [e] :=
      List.drop_append_of_le_length (by omega)
    have happ : appendLog logs e = (logs ++ [e]).drop 1 := by
      unfold appendLog
      rw [if_pos hc]
    refine ⟨?_, fun _ => by rw [happ, hdrop], fun hlt => by omega⟩
    rw [happ]
    simp only [List.length_drop]
    omega
  · have happ : appendLog logs e = logs ++ [e] := by
      unfold appendLog
      rw [if_neg hc]
    rw [hlen] at hc
    refine ⟨?_, fun heq => by omega, fun _ => happ⟩
    rw [happ, hlen]
    omega

/-- Witness for C7 on a concrete short buffer. -/
theorem c7_log_buffer_capped_witness :
    (appendLog ["[t] one"] "[t] two").length ≤ 500 ∧
    ((["[t] one"] : List String).length = 500 →
      appendLog ["[t] one"] "[t] two" =
        (["[t] one"] : List String).drop 1 ++ ["[t] two"]) ∧
    ((["[t] one"] : List String).length < 500 →
      appendLog ["[t] one"] "[t] two" = ["[t] one"] ++ ["[t] two"]) :=
  c7_log_buffer_capped ["[t] one"] "[t] two" (by decide)

/-- C8. The timed sweep keeps a registry entry iff the session is running
or its lastActivity is at most one hour (3600000 ms) old: an entry present
before the sweep remains present exactly under that condition, and a
running session is never removed regardless of how old its lastActivity
is. -/
theorem c8_sweep_removes_exactly_stale_stopped (st : ServerState) (now : Nat)
    (key : String) (s : Session) (h : (key, s) ∈ st.activeSessions) :
    ((key, s) ∈ (sweep st now).activeSessions ↔
      (s.running = true ∨ now - s.lastActivity ≤ 3600000)) ∧
    (s.running = true → (key, s) ∈ (sweep st now).activeSessions) := by
  have hmem : (key, s) ∈ (sweep st now).activeSessions ↔
      ((key, s) ∈ st.activeSessions ∧ sweepKeeps now s = true) := by
    simp [sweep, List.mem_filter]
  have hkeep : sweepKeeps now s = true ↔
      (s.running = true ∨ now - s.lastActivity ≤ 3600000) := by
    simp [sweepKeeps, Nat.not_lt]
  refine ⟨?_, ?_⟩
  · rw [hmem, hkeep]
    simp [h]
  · intro hr
    rw [hmem]
    exact ⟨h, hkeep.mpr (Or.inl hr)⟩

/-- Witness for C8 on a one-entry registry holding a stopped session whose
lastActivity is 4000000 ms in the past: the kept-iff condition evaluates to
false on it, so the sweep removes it. -/
theorem c8_sweep_removes_exactly_stale_stopped_witness :
    (("a", (⟨false, "1", "inbox", 0, 0, 0, 0⟩ : Session)) ∈
      (sweep ⟨[("a", ⟨false, "1", "inbox", 0, 0, 0, 0⟩)], [], [], []⟩
        4000000).activeSessions ↔
      ((⟨false, "1", "inbox", 0, 0, 0, 0⟩ : Session).running = true ∨
        4000000 - (⟨false, "1", "inbox", 0, 0, 0, 0⟩ : Session).lastActivity ≤
          3600000)) ∧
    ((⟨false, "1", "inbox", 0, 0, 0, 0⟩ : Session).running = true →
      ("a", (⟨false, "1", "inbox", 0, 0, 0, 0⟩ : Session)) ∈
      (sweep ⟨[("a", ⟨false, "1", "inbox", 0, 0, 0, 0⟩)], [], [], []⟩
        4000000).activeSessions) :=
  c8_sweep_removes_exactly_stale_stopped _ 4000000 "a" _ (by decide)

/-- C9. A successful stop mutates only the running flag (and the connection
set): the registry entry for the key is still present with the same target
descriptor, timestamps and counters, the session has a log buffer, and the
status endpoint still answers for this key, echoing the preserved fields
with running = false. -/
theorem c9_stop_preserves_registry_entry (st : ServerState) (key ts : String)
    (sess : Session) (h : alGet st.activeSessions key = some sess) :
    (stopCampaign st key ts).2 = true ∧
    alGet (stopCampaign st key ts).1.activeSessions key =
      some { sess with running := false } ∧
    (alGet (stopCampaign st key ts).1.sessionLogs key).isSome = true ∧
    getStatus (stopCampaign st key ts).1 key = some
      { running := false, targetNumber := sess.targetNumber,
        targetType := sess.targetType, startTime := sess.startTime,
        sentCount := sess.sentCount, failedCount := sess.failedCount,
        lastActivity := sess.lastActivity } := by
  have hstop : stopCampaign st key ts =
      (broadcastLogs
        { st with
          activeSessions := alSet st.activeSessions key
            { sess with running := false },
          sessionConnections := st.sessionConnections.filter
            (fun k => k != key) }
        key ts "[SYSTEM] Session stopped by user", true) := by
    unfold stopCampaign
    rw [h]
  rw [hstop]
  refine ⟨rfl, ?_, ?_, ?_⟩
  · simp [broadcastLogs, alGet_alSet_self]
  · simp [broadcastLogs, alGet_alSet_self]
  · simp [getStatus, broadcastLogs, alGet_alSet_self]

/-- Witness for C9 on a one-session server state. -/
theorem c9_stop_preserves_registry_entry_witness :
    (stopCampaign ⟨[("a", ⟨true, "1", "inbox", 5, 2, 1, 9⟩)], [], ["a"], []⟩
      "a" "t").2 = true ∧
    alGet (stopCampaign
        ⟨[("a", ⟨true, "1", "inbox", 5, 2, 1, 9⟩)], [], ["a"], []⟩
        "a" "t").1.activeSessions "a" =
      some { (⟨true, "1", "inbox", 5, 2, 1, 9⟩ : Session) with
        running := false } ∧
    (alGet (stopCampaign
        ⟨[("a", ⟨true, "1", "inbox", 5, 2, 1, 9⟩)], [], ["a"], []⟩
        "a" "t").1.sessionLogs "a").isSome = true ∧
    getStatus (stopCampaign
        ⟨[("a", ⟨true, "1", "inbox", 5, 2, 1, 9⟩)], [], ["a"], []⟩
        "a" "t").1 "a" = some
      { running := false,
        targetNumber := (⟨true, "1", "inbox", 5, 2, 1, 9⟩ : Session).targetNumber,
        targetType := (⟨true, "1", "inbox", 5, 2, 1, 9⟩ : Session).targetType,
        startTime := (⟨true, "1", "inbox", 5, 2, 1, 9⟩ : Session).startTime,
        sentCount := (⟨true, "1", "inbox", 5, 2, 1, 9⟩ : Session).sentCount,
        failedCount := (⟨true, "1", "inbox", 5, 2, 1, 9⟩ : Session).failedCount,
        lastActivity := (⟨true, "1", "inbox", 5, 2, 1, 9⟩ : Session).lastActivity } :=
  c9_stop_preserves_registry_entry
    ⟨[("a", ⟨true, "1", "inbox", 5, 2, 1, 9⟩)], [], ["a"], []⟩
    "a" "t" ⟨true, "1", "inbox", 5, 2, 1, 9⟩ (by decide)

/-- C10. A WebSocket observer that subscribes with a session key for which
no log buffer exists gets nothing: the handler sends no backlog and leaves
the client untouched (in particular its sessionKey property stays unset),
and because the fan-out only delivers to clients whose sessionKey property
matches, every later broadcast for any key leaves the client unchanged -
the subscription silently yields nothing rather than an error. -/
theorem c10_unknown_session_subscribe_silent (st : ServerState) (c : WsClient)
    (key : String) (h1 : alGet st.sessionLogs key = none)
    (h2 : c.sessionKey = none) :
    (subscribeHandler st c key).2 = none ∧
    (subscribeHandler st c key).1 = c ∧
    ∀ key2 msg, notifyClient key2 msg (subscribeHandler st c key).1 = c := by
  have hsub : subscribeHandler st c key = (c, none) := by
    unfold subscribeHandler
    rw [h1]
  refine ⟨by rw [hsub], by rw [hsub], ?_⟩
  intro key2 msg
  rw [hsub]
  unfold notifyClient
  rw [h2]
  have hbeq : ((none : Option String) == some key2) = false := rfl
  simp [hbeq]

/-- Witness for C10: an open, unsubscribed client asking for a key with no
log buffer on an empty server state. -/
theorem c10_unknown_session_subscribe_silent_witness :
    (subscribeHandler ⟨[], [], [], []⟩ ⟨true, none, []⟩ "k").2 = none ∧
    (subscribeHandler ⟨[], [], [], []⟩ ⟨true, none, []⟩ "k").1 =
      (⟨true, none, []⟩ : WsClient) ∧
    ∀ key2 msg, notifyClient key2 msg
        (subscribeHandler ⟨[], [], [], []⟩ ⟨true, none, []⟩ "k").1 =
      (⟨true, none, []⟩ : WsClient) :=
  c10_unknown_session_subscribe_silent ⟨[], [], [], []⟩ ⟨true, none, []⟩ "k"
    rfl rfl
